import Mathlib

/-!
Verification of the serial NOR configuration block builder of
imxrt-boot-gen (src/serial_flash/nor.rs).

The module defines the ipCmdSerialClkFreq selector enum, the packed
512-byte serial NOR configuration block, its constructor `new` and the
fluent builder methods, and a compile-time size assertion.  The embedded
flexspi configuration block comes from a companion module whose source is
not part of this tree; it is modelled from the specification below.
-/

namespace SerialFlashNor

/-- Chip families distinguished by the conditional-compilation attributes
in src/serial_flash/nor.rs (features imxrt1010, imxrt1060, imxrt1064 and
imxrt500 are the ones the file names). -/
inductive Family where
  | imxrt1010
  | imxrt1060
  | imxrt1064
  | imxrt500
  deriving DecidableEq, Fintype

/-- The SerialClockFrequency enum of src/serial_flash/nor.rs, taking the
union of the variants over all chip families; which variants are compiled
in for a given family is recorded by `available` below. -/
inductive SerialClockFrequency where
  | NoChange
  | MHz30
  | MHz50
  | MHz60
  | MHz75
  | MHz80
  | MHz100
  | MHz120
  | MHz133
  | MHz166
  deriving DecidableEq, Fintype

/-- The declaration order of the variants in the source enum. -/
def variantOrder : List SerialClockFrequency :=
  [.NoChange, .MHz30, .MHz50, .MHz60, .MHz75, .MHz80, .MHz100, .MHz120,
   .MHz133, .MHz166]

/-- Whether a variant is compiled in for a family, from the cfg attributes
of nor.rs: MHz75 is absent on imxrt500; MHz120 and MHz166 exist only on
imxrt1060, imxrt1064 and imxrt500. -/
def available (fam : Family) : SerialClockFrequency → Bool
  | .MHz75 => !(fam == Family.imxrt500)
  | .MHz120 =>
      fam == Family.imxrt1060 || fam == Family.imxrt1064 ||
        fam == Family.imxrt500
  | .MHz166 =>
      fam == Family.imxrt1060 || fam == Family.imxrt1064 ||
        fam == Family.imxrt500
  | _ => true

/-- The variants available for a family, in declaration order: the enum as
the Rust compiler sees it when that family's feature is selected. -/
def availList (fam : Family) : List SerialClockFrequency :=
  variantOrder.filter (available fam)

/-- The numeric encoding of a variant for a family, i.e. the Rust
discriminant produced by the cast to u32: NoChange is written 0 in the
source and every later compiled-in variant is one more than the variant
before it, which is its index in the family's variant list. -/
def SerialClockFrequency.encoding (fam : Family)
    (f : SerialClockFrequency) : Nat :=
  (availList fam).indexOf f

/-- Modelled from the spec: the external MemoryLayoutPrimitive
(flexspi::ConfigurationBlock), whose source module is not in this tree.
The spec treats it as an opaque fixed-size record that this subsystem
embeds at byte offset 0 and may alter only in its one-byte device-type
discriminant.  Its total size must be 448 bytes for the 512-byte static
assertion of nor.rs to hold, so the model is the discriminant byte plus
447 opaque bytes; the discriminant's position inside the record is left
unspecified by the spec and is not used by any claim. -/
structure FlexSPIConfigurationBlock where
  device_type : Nat
  rest : Fin 447 → Nat

/-- Packed bytes of the primitive: 448 bytes in total. -/
def FlexSPIConfigurationBlock.toBytes
    (cb : FlexSPIConfigurationBlock) : List Nat :=
  cb.device_type % 256 :: List.ofFn cb.rest

/-- The serial NOR ConfigurationBlock struct of nor.rs: the embedded
flexspi block, then page_size, sector_size and ip_cmd_serial_clk_freq as
u32 fields, then 52 reserved bytes. -/
structure ConfigurationBlock where
  mem_cfg : FlexSPIConfigurationBlock
  page_size : Nat
  sector_size : Nat
  ip_cmd_serial_clk_freq : Nat
  _reserved : Fin 52 → Nat

/-- Little-endian bytes of a u32 field. -/
def u32le (x : Nat) : List Nat :=
  [x % 256, x / 256 % 256, x / 65536 % 256, x / 16777216 % 256]

/-- Packed representation of the repr(C, packed) struct: the embedded
primitive at offset 0, the three u32 fields in declaration order, then
the reserved bytes.  No padding is inserted anywhere. -/
def ConfigurationBlock.toBytes (cb : ConfigurationBlock) : List Nat :=
  cb.mem_cfg.toBytes ++ u32le cb.page_size ++ u32le cb.sector_size ++
    u32le cb.ip_cmd_serial_clk_freq ++ List.ofFn cb._reserved

/-- ConfigurationBlock::new of nor.rs: force the device_type discriminant
of the passed flexspi block to 1 (serial NOR) and zero every other
field. -/
def ConfigurationBlock.new
    (mem_cfg : FlexSPIConfigurationBlock) : ConfigurationBlock :=
  { mem_cfg := { mem_cfg with device_type := 1 },
    page_size := 0,
    sector_size := 0,
    ip_cmd_serial_clk_freq := 0,
    _reserved := fun _ => 0 }

/-- The page_size builder method of nor.rs (the Rust method shares the
field's name, which Lean does not allow, hence the with_ prefix). -/
def ConfigurationBlock.with_page_size (self : ConfigurationBlock)
    (page_size : Nat) : ConfigurationBlock :=
  { self with page_size := page_size }

/-- The sector_size builder method of nor.rs. -/
def ConfigurationBlock.with_sector_size (self : ConfigurationBlock)
    (sector_size : Nat) : ConfigurationBlock :=
  { self with sector_size := sector_size }

/-- The ip_cmd_serial_clk_freq builder method of nor.rs; the stored value
is the variant's discriminant cast to u32, which depends on the chip
family selected at build time. -/
def ConfigurationBlock.with_ip_cmd_serial_clk_freq
    (self : ConfigurationBlock) (fam : Family)
    (serial_clock_frequency : SerialClockFrequency) : ConfigurationBlock :=
  { self with
      ip_cmd_serial_clk_freq := serial_clock_frequency.encoding fam }

/-- One call of the fluent builder API. -/
inductive BuilderStep where
  | pageSize (n : Nat)
  | sectorSize (n : Nat)
  | clkFreq (fam : Family) (f : SerialClockFrequency)

/-- Apply one builder call. -/
def applyStep (cb : ConfigurationBlock) : BuilderStep → ConfigurationBlock
  | .pageSize n => cb.with_page_size n
  | .sectorSize n => cb.with_sector_size n
  | .clkFreq fam f => cb.with_ip_cmd_serial_clk_freq fam f

/-- Apply a finite chain of builder calls, left to right. -/
def applyChain (cb : ConfigurationBlock)
    (steps : List BuilderStep) : ConfigurationBlock :=
  steps.foldl applyStep cb

/-- The packed flexspi block is 448 bytes for every value. -/
theorem flexspi_toBytes_length (m : FlexSPIConfigurationBlock) :
    m.toBytes.length = 448 := by
  rw [FlexSPIConfigurationBlock.toBytes, List.length_cons, List.length_ofFn]

/-- The packed serial NOR block is 512 bytes for every value: the static
size assertion of nor.rs, stated for the whole type. -/
theorem toBytes_length (cb : ConfigurationBlock) :
    cb.toBytes.length = 512 := by
  rw [ConfigurationBlock.toBytes]
  simp only [List.length_append, List.length_ofFn, flexspi_toBytes_length,
    u32le, List.length_cons, List.length_nil]

/-- Builder chains never touch the reserved bytes. -/
theorem applyChain_reserved (steps : List BuilderStep) :
    ∀ cb : ConfigurationBlock,
      (applyChain cb steps)._reserved = cb._reserved := by
  induction steps with
  | nil => intro cb; rfl
  | cons s rest ih =>
      intro cb
      have h : applyChain cb (s :: rest) = applyChain (applyStep cb s) rest :=
        rfl
      rw [h, ih]
      cases s <;> rfl

/-- C1: every ConfigurationBlock value, in particular a fresh result of
new and any result of a chain of builder calls, packs to exactly 512
bytes; the bound is a property of the type, independent of the
instance. -/
theorem c1_packed_size_is_512 :
    (∀ cb : ConfigurationBlock, cb.toBytes.length = 512) ∧
      ∀ (p : FlexSPIConfigurationBlock) (steps : List BuilderStep),
        (applyChain (ConfigurationBlock.new p) steps).toBytes.length = 512 :=
  ⟨fun cb => toBytes_length cb, fun _ _ => toBytes_length _⟩

/-- C2: whatever device_type value the input primitive carries, new forces
the embedded device_type byte of the result to 1, the serial NOR
encoding. -/
theorem c2_device_type_forced_to_one :
    ∀ p : FlexSPIConfigurationBlock,
      (ConfigurationBlock.new p).mem_cfg.device_type = 1 :=
  fun _ => rfl

/-- C3: the encodings pinned by the source tests hold: on imxrt500 MHz80
encodes to 4 and MHz166 to 8, and on imxrt1010 MHz133 encodes to 7. -/
theorem c3_pinned_encodings :
    SerialClockFrequency.encoding Family.imxrt500 .MHz80 = 4 ∧
      SerialClockFrequency.encoding Family.imxrt500 .MHz166 = 8 ∧
      SerialClockFrequency.encoding Family.imxrt1010 .MHz133 = 7 := by
  decide

/-- C4 counterexample: on imxrt500 the tier MHz75 is skipped, yet the
encodings of its available neighbours MHz60 and MHz80 are consecutive, so
the skipped tier leaves no gap in the numeric values. -/
theorem c4_counterexample :
    available Family.imxrt500 .MHz75 = false ∧
      available Family.imxrt500 .MHz60 = true ∧
      available Family.imxrt500 .MHz80 = true ∧
      SerialClockFrequency.encoding Family.imxrt500 .MHz80 =
        SerialClockFrequency.encoding Family.imxrt500 .MHz60 + 1 := by
  decide

/-- C4 amended: for every family the NoChange variant encodes to 0 and the
available variants encode, in declaration order, to the consecutive
values 0, 1, 2, ...; skipped family-specific tiers leave no gaps. -/
theorem c4_amended_encodings_consecutive :
    ∀ fam : Family,
      SerialClockFrequency.encoding fam .NoChange = 0 ∧
        (availList fam).map (SerialClockFrequency.encoding fam) =
          List.range (availList fam).length := by
  decide

/-- C5: a record produced by new alone has page_size, sector_size,
ip_cmd_serial_clk_freq and every byte of the reserved region equal to
zero. -/
theorem c5_new_zeroes_all_other_fields :
    ∀ p : FlexSPIConfigurationBlock,
      (ConfigurationBlock.new p).page_size = 0 ∧
        (ConfigurationBlock.new p).sector_size = 0 ∧
        (ConfigurationBlock.new p).ip_cmd_serial_clk_freq = 0 ∧
        ∀ i : Fin 52, (ConfigurationBlock.new p)._reserved i = 0 :=
  fun _ => ⟨rfl, rfl, rfl, fun _ => rfl⟩

/-- C6: new embeds the passed primitive at byte offset 0 of the packed
record and alters nothing in it but the device-type discriminant: the
opaque remainder of the embedded copy equals that of the input, both as a
field and byte for byte. -/
theorem c6_embedded_primitive_unaltered :
    ∀ p : FlexSPIConfigurationBlock,
      (ConfigurationBlock.new p).mem_cfg.rest = p.rest ∧
        (ConfigurationBlock.new p).toBytes.take 448 =
          (ConfigurationBlock.new p).mem_cfg.toBytes ∧
        (ConfigurationBlock.new p).mem_cfg.toBytes.drop 1 =
          p.toBytes.drop 1 := by
  intro p
  refine ⟨rfl, ?_, rfl⟩
  rw [ConfigurationBlock.toBytes, List.append_assoc, List.append_assoc,
    List.append_assoc, ← flexspi_toBytes_length (ConfigurationBlock.new p).mem_cfg,
    List.take_left]

/-- C7: the page_size and sector_size builders commute, both as record
values and byte for byte. -/
theorem c7_page_sector_commute :
    ∀ (r : ConfigurationBlock) (p s : Nat),
      (r.with_page_size p).with_sector_size s =
          (r.with_sector_size s).with_page_size p ∧
        ((r.with_page_size p).with_sector_size s).toBytes =
          ((r.with_sector_size s).with_page_size p).toBytes :=
  fun _ _ _ => ⟨rfl, rfl⟩

/-- C8: for every input primitive and family, the chain new, page_size
256, sector_size 4096, ip_cmd_serial_clk_freq MHz30 yields page-size
field 256, sector-size field 4096, frequency field equal to the family's
numeric code for MHz30, and a 512-byte packed representation. -/
theorem c8_example_chain :
    ∀ (p : FlexSPIConfigurationBlock) (fam : Family),
      ((((ConfigurationBlock.new p).with_page_size 256).with_sector_size
            4096).with_ip_cmd_serial_clk_freq fam .MHz30).page_size = 256 ∧
        ((((ConfigurationBlock.new p).with_page_size 256).with_sector_size
            4096).with_ip_cmd_serial_clk_freq fam .MHz30).sector_size = 4096 ∧
        ((((ConfigurationBlock.new p).with_page_size 256).with_sector_size
              4096).with_ip_cmd_serial_clk_freq fam .MHz30).ip_cmd_serial_clk_freq =
          SerialClockFrequency.encoding fam .MHz30 ∧
        ((((ConfigurationBlock.new p).with_page_size 256).with_sector_size
            4096).with_ip_cmd_serial_clk_freq fam .MHz30).toBytes.length = 512 :=
  fun _ _ => ⟨rfl, rfl, rfl, toBytes_length _⟩

/-- C9: after new and any finite chain of builder calls, every byte of the
52-byte reserved region is still zero. -/
theorem c9_reserved_stays_zero :
    ∀ (p : FlexSPIConfigurationBlock) (steps : List BuilderStep)
      (i : Fin 52),
      (applyChain (ConfigurationBlock.new p) steps)._reserved i = 0 := by
  intro p steps i
  rw [applyChain_reserved]
  rfl

/-- C10: each builder overwrites its field with last-write-wins semantics;
idempotence of repeating a call with the same argument is the special
case a = b (and famA = famB, f = g). -/
theorem c10_last_write_wins :
    ∀ (r : ConfigurationBlock) (a b : Nat) (famA famB : Family)
      (f g : SerialClockFrequency),
      (r.with_page_size a).with_page_size b = r.with_page_size b ∧
        (r.with_sector_size a).with_sector_size b = r.with_sector_size b ∧
        (r.with_ip_cmd_serial_clk_freq famA f).with_ip_cmd_serial_clk_freq
            famB g =
          r.with_ip_cmd_serial_clk_freq famB g :=
  fun _ _ _ _ _ _ _ => ⟨rfl, rfl, rfl⟩

end SerialFlashNor
